import Mathlib

/-!
Verification development for the discord-bellboy-bot repository.

The Python source is embedded shallowly: pure decision functions become Lean
functions, `time.time()` float timestamps become explicit `Int` arguments
(every comparison in the source is of the form `now - t < c` with `c > 0`,
which `Int` models exactly), Python dicts (which preserve insertion order and
have unique keys) become association lists `List (String × Int)` with a
key-`Nodup` hypothesis where the dict invariant matters, and the filesystem
is abstracted into explicit `Bool`/list parameters describing which files
exist.  Exceptions are modelled with `Except`.
-/

namespace Bellboy

/-! ### Membership classifier (src/app/presence_manager.py) -/

/-- A Discord member as observed by `PresenceManager.is_human_user`:
only the attributes the function reads are modelled
(`id`, `bot`, `discriminator`, `system`). -/
structure Member where
  id : Int
  bot : Bool
  discriminator : String
  system : Bool
deriving DecidableEq

/-- `PresenceManager.is_human_user` (src/app/presence_manager.py lines 104-130).
`botUserId` models `self.bot_user_id : Optional[int]`.  The Python guard is
`if self.bot_user_id and member.id == self.bot_user_id`, where `None` and `0`
are both falsy, which the inner match reproduces. -/
def is_human_user (botUserId : Option Int) (m : Member) : Bool :=
  if m.bot then false
  else if (match botUserId with
           | some i => !(i == 0) && (m.id == i)
           | none => false) then false
  else if m.discriminator == "0000" then false
  else if m.system then false
  else true

/-- A voice channel: its id (Python compares `str(channel.id)` with the
ignored-channel id, so the id is kept as a string) and its member list. -/
structure VChannel where
  id : String
  members : List Member
deriving DecidableEq

/-- `PresenceManager.count_humans_in_channel` (lines 132-148): `none` models a
missing channel (`not channel or not hasattr(channel, 'members')`), otherwise
the number of members passing `is_human_user`. -/
def count_humans_in_channel (botUserId : Option Int) : Option VChannel → Nat
  | none => 0
  | some c => c.members.countP (fun m => is_human_user botUserId m)

/-- The ignored-channel test inside `find_most_active_channel` (line 168):
`if self.ignored_channel_id and str(channel.id) == self.ignored_channel_id`.
`ignoredChannelId` models `os.getenv('IGNORED_CHANNEL_ID') : Optional[str]`;
`None` and the empty string are falsy. -/
def isIgnoredChannel (ignoredChannelId : Option String) (c : VChannel) : Bool :=
  match ignoredChannelId with
  | none => false
  | some s => !(s == "") && (c.id == s)

/-- The accumulator loop of `PresenceManager.find_most_active_channel`
(lines 163-175): `best`/`maxHumans` are the loop variables `best_channel`
and `max_humans`; the update fires only on `human_count > max_humans`. -/
def find_most_active_go (ignoredChannelId : Option String) (botUserId : Option Int) :
    List VChannel → Option VChannel → Nat → Option VChannel × Nat
  | [], best, maxHumans => (best, maxHumans)
  | c :: cs, best, maxHumans =>
    if isIgnoredChannel ignoredChannelId c then
      find_most_active_go ignoredChannelId botUserId cs best maxHumans
    else if maxHumans < count_humans_in_channel botUserId (some c) then
      find_most_active_go ignoredChannelId botUserId cs (some c)
        (count_humans_in_channel botUserId (some c))
    else
      find_most_active_go ignoredChannelId botUserId cs best maxHumans

/-- `PresenceManager.find_most_active_channel` (lines 150-180) over the
guild's ordered `voice_channels` list. -/
def find_most_active_channel (ignoredChannelId : Option String) (botUserId : Option Int)
    (voiceChannels : List VChannel) : Option VChannel × Nat :=
  find_most_active_go ignoredChannelId botUserId voiceChannels none 0

/-! ### Connection gating (src/app/presence_manager.py) -/

/-- The guild's `voice_client` attribute, as far as the decision functions
read it: whether `is_connected()` is true and which channel it reports. -/
structure VoiceClient where
  connected : Bool
  channelId : String
deriving DecidableEq

/-- `PresenceManager.can_attempt_connection` (lines 43-69).
`botReadyTime` models `self.bot_ready_time : Optional[float]` (guarded by
Python truthiness: `None` and `0.0` are falsy); `lastConnectionAttempt`
models `self.last_connection_attempt.get(guild_id, 0)` for the guild, kept
as `Option` with default `0` to mirror the dict lookup. -/
def can_attempt_connection (botReadyTime : Option Int) (startupDelay : Int)
    (lastConnectionAttempt : Option Int) (connectionCooldown : Int) (now : Int) : Bool :=
  if (match botReadyTime with
      | some t => !(t == 0) && (now - t < startupDelay)
      | none => false) then false
  else if now - lastConnectionAttempt.getD 0 < connectionCooldown then false
  else true

/-- `PresenceManager.should_bot_join` (lines 182-211): returns false on a
missing target or zero count, then (when `respectCooldown`) defers to
`can_attempt_connection`, and finally joins exactly when the guild has no
`voice_client` object at all (connectedness is not checked). -/
def should_bot_join (botReadyTime : Option Int) (startupDelay : Int)
    (lastConnectionAttempt : Option Int) (connectionCooldown : Int) (now : Int)
    (voiceClient : Option VoiceClient) (targetChannel : Option VChannel)
    (humanCount : Nat) (respectCooldown : Bool) : Bool :=
  if targetChannel.isNone || humanCount == 0 then false
  else if respectCooldown &&
      !(can_attempt_connection botReadyTime startupDelay lastConnectionAttempt
          connectionCooldown now) then false
  else voiceClient.isNone

/-! ### Channel-switch cooldown (src/app/bellboy.py) -/

/-- `BellboyBot.channel_switch_cooldown = 30.0` (src/app/bellboy.py line 89). -/
def channel_switch_cooldown : Int := 30

/-- `BellboyBot._should_switch_channels` (lines 223-232): false while
`now - last_switch < cooldown`, true otherwise. -/
def should_switch_channels (lastChannelSwitch now cooldown : Int) : Bool :=
  if now - lastChannelSwitch < cooldown then false else true

/-- `BellboyBot._mark_channel_switch` (lines 234-236): records the current
time as the guild's last switch timestamp. -/
def mark_channel_switch (now : Int) : Int := now

/-- The connection action chosen by one evaluation of
`BellboyBot.join_busiest_channel_if_needed` (lines 478-564). -/
inductive JoinAction where
  | idle
  | join
  | reconnect
  | move
  | cooldownSuppressed
deriving DecidableEq

/-- The branch structure of `BellboyBot.join_busiest_channel_if_needed`
(lines 478-564), with the result of `find_busiest_voice_channel` supplied as
`busiestChannelId`/`maxMembers` (the float-weighted census itself is outside
this claim).  Note that only the move branch (connected, different channel)
consults `_should_switch_channels`; the join and reconnect branches do not. -/
def join_busiest_action (voiceClient : Option VoiceClient) (busiestChannelId : Option String)
    (maxMembers : Nat) (lastChannelSwitch now cooldown : Int) : JoinAction :=
  match busiestChannelId with
  | none => JoinAction.idle
  | some b =>
    if maxMembers == 0 then JoinAction.idle
    else
      match voiceClient with
      | none => JoinAction.join
      | some vc =>
        if !vc.connected then JoinAction.reconnect
        else if !(vc.channelId == b) then
          if !(should_switch_channels lastChannelSwitch now cooldown) then
            JoinAction.cooldownSuppressed
          else JoinAction.move
        else JoinAction.idle

/-- Whether a `JoinAction` executes a connection action against the
transport (`connect`, reconnect, or `move_to`). -/
def executedConnectionAction : JoinAction → Bool
  | JoinAction.join => true
  | JoinAction.reconnect => true
  | JoinAction.move => true
  | _ => false

/-! ### TTS cache manager (src/app/tts/tts_manager.py, class TTSCacheManager) -/

/-- One entry of `TTSCacheManager.cache : dict` — file path mapped to its
timestamp.  The dict itself is modelled as an insertion-ordered association
list. -/
abbrev CacheEntry := String × Int

/-- Comparison key of `sorted(self.cache.items(), key=lambda x: x[1])`
(line 247): order entries by timestamp. -/
def entryLE (a b : CacheEntry) : Prop := a.2 ≤ b.2

instance : DecidableRel entryLE := fun a b => Int.decLe a.2 b.2

instance : IsTotal CacheEntry entryLE := ⟨fun a b => Int.le_total a.2 b.2⟩

instance : IsTrans CacheEntry entryLE := ⟨fun _ _ _ h₁ h₂ => Int.le_trans h₁ h₂⟩

/-- Python dict assignment `self.cache[file_path] = timestamp`: updates the
entry in place if the key is present, otherwise appends (dicts preserve
insertion order). -/
def dict_set (cache : List CacheEntry) (filePath : String) (timestamp : Int) : List CacheEntry :=
  if cache.any (fun e => e.1 == filePath) then
    cache.map (fun e => if e.1 == filePath then (e.1, timestamp) else e)
  else cache ++ [(filePath, timestamp)]

/-- `TTSCacheManager._cleanup_if_needed` (lines 239-261): when the entry
count exceeds `max_files`, stably sort by timestamp, take the oldest
`len - max_files` entries, and delete them from the dict
(`List.insertionSort` is a stable sort, extensionally equal to Python's
`sorted`; file-system `os.remove` errors are out of scope — the
no-IO-failure path is modelled, where every listed entry is deleted). -/
def cleanup_if_needed (maxFiles : Nat) (cache : List CacheEntry) : List CacheEntry :=
  if cache.length ≤ maxFiles then cache
  else
    let sortedCache := List.insertionSort entryLE cache
    let filesToRemove := sortedCache.take (cache.length - maxFiles)
    cache.filter (fun e => decide (¬ e ∈ filesToRemove))

/-- `TTSCacheManager.add_file` (lines 215-222): no-op when the cache is
disabled, otherwise record the file with the current timestamp and run
`_cleanup_if_needed`. -/
def add_file (cacheEnabled : Bool) (maxFiles : Nat) (cache : List CacheEntry)
    (filePath : String) (now : Int) : List CacheEntry :=
  if !cacheEnabled then cache
  else cleanup_if_needed maxFiles (dict_set cache filePath now)

/-- `TTSCacheManager._scan_existing_cache` (lines 263-296): no-op when
disabled, otherwise add every `*.mp3`/`*.wav` file found in the cache
directory to the tracking dict, keyed by path with the file's modification
time as its timestamp (`existingFiles` is the glob result paired with the
mtimes; the `os.path.getmtime` OSError fallback is the success path here).
No cleanup is performed by the scan. -/
def scan_existing_cache (cacheEnabled : Bool) (existingFiles : List CacheEntry)
    (cache : List CacheEntry) : List CacheEntry :=
  if !cacheEnabled then cache
  else existingFiles.foldl (fun acc ft => dict_set acc ft.1 ft.2) cache

/-! ### String helpers modelling Python primitives

The Python string primitives used by the TTS manager (`str.split` with a
one-character separator, `str.lower`, `str.replace`, `os.path.basename`)
are modelled structurally over `List Char` so that they are executable in
the kernel; each mirrors the documented CPython semantics. -/

/-- Python `s.split(sep)` for a one-character separator: `"" → [""]`,
`"a_b" → ["a","b"]`, `"_" → ["",""]`. -/
def splitOnChar (sep : Char) : List Char → List (List Char)
  | [] => [[]]
  | c :: cs =>
    match splitOnChar sep cs with
    | [] => [[]]
    | h :: t => if c == sep then [] :: h :: t else (c :: h) :: t

/-- Python `str.lower()` (ASCII case, which is all the provider registry
uses). -/
def pyLower (s : String) : String := String.mk (s.data.map Char.toLower)

/-- `os.path.basename`: the component after the last `/`. -/
def basename (p : String) : String := String.mk ((splitOnChar '/' p.data).getLastD [])

/-- Left-to-right, non-overlapping replacement, fuel-indexed (the fuel is
the input length, which bounds the number of steps). -/
def replaceAllAux (pat repl : List Char) : Nat → List Char → List Char
  | _, [] => []
  | 0, s => s
  | n + 1, c :: cs =>
    if !pat.isEmpty && pat.isPrefixOf (c :: cs) then
      repl ++ replaceAllAux pat repl n (List.drop (pat.length - 1) cs)
    else c :: replaceAllAux pat repl n cs

/-- Python `s.replace(pat, repl)` (also the behaviour of
`str.format(display_name=...)` on the message templates, whose only
placeholder is `{display_name}`). -/
def pyReplace (s pat repl : String) : String :=
  String.mk (replaceAllAux pat.data repl.data s.data.length s.data)

/-! ### TTS manager: cache paths, validation, messages
(src/app/tts/tts_manager.py, class TTSManager) -/

/-- Modelled from the spec: stand-in for `hashlib.md5(text.encode()).hexdigest()`
(an external library call, not code of this repository).  The spec only
relies on the hash being a deterministic "cheap hash" of the text; general
theorems quantify over the hash function, and this concrete stand-in — a
deterministic function onto 32 hex characters, the shape of a real md5
hexdigest — is used for concrete evaluations. -/
def md5Mock (s : String) : String :=
  let n := s.data.foldl (fun a c => (a * 131 + c.toNat) % 4294967296) 7
  let digits := Nat.toDigits 16 n
  String.mk (List.replicate (32 - digits.length) '0' ++ digits)

/-- `TTSManager.generate_cache_path` (lines 489-495):
`os.path.join(cache_dir, f"{prefix}_{provider_name}_{md5(text)}{suffix}")`
(the join is plain concatenation for a relative filename under a directory
without a trailing slash).  The hash covers the text only; the provider name
appears in the filename, and no synthesis parameters are involved. -/
def generate_cache_path (md5hex : String → String) (cacheDir providerName : String)
    (text : String) (pre suffixStr : String) : String :=
  cacheDir ++ "/" ++ pre ++ "_" ++ providerName ++ "_" ++ md5hex text ++ suffixStr

/-- `TTSManager.validate_cache_file` (lines 497-521): false when the file
does not exist; otherwise split the basename on `_`, require at least three
parts, take `parts[2]`, strip everything from the first `.`, and compare
with the md5 of the expected text. -/
def validate_cache_file (md5hex : String → String) (expectedText filePath : String)
    (fileExistsAtPath : Bool) : Bool :=
  if !fileExistsAtPath then false
  else
    let filename := basename filePath
    let parts := (splitOnChar '_' filename.data).map String.mk
    if parts.length < 3 then false
    else
      let hashWithExt := parts.getD 2 ""
      let cachedHash := String.mk ((splitOnChar '.' hashWithExt.data).headD [])
      cachedHash == md5hex expectedText

/-- `TTSProvider.get_message` (lines 49-53): look the message type up in the
config's `messages` table, default to `f"{message_type} {display_name}"`,
then format with the display name. -/
def get_message (messages : List (String × String)) (messageType displayName : String) : String :=
  let template :=
    ((messages.find? (fun kv => kv.1 == messageType)).map Prod.snd).getD
      (messageType ++ " {display_name}")
  pyReplace template "{display_name}" displayName

/-- The cache path computed by `BellboyBot.create_tts_from_text`
(src/app/bellboy.py lines 290-321): `generate_cache_path(text, prefix="custom")`.
The synthesis kwargs are received by the caller but never reach the path
computation, which is why they are parameters here and unused. -/
def create_tts_from_text_cache_path (md5hex : String → String) (cacheDir providerName : String)
    (text : String) (synthKwargs : List (String × String)) : String :=
  generate_cache_path md5hex cacheDir providerName text "custom" ".mp3"

/-! ### Provider factory (src/app/tts/providers/provider_factory.py) -/

/-- `TTSProviderFactory._providers` — the registration order of the
name → constructor registry (lines 23-27). -/
def tts_provider_registry : List String := ["coqui", "piper", "melo"]

/-- The environment a provider name is resolved against: whether its
constructor succeeds, whether `validate_config()` passes, and whether
`initialize()` succeeds. -/
structure ProviderEnv where
  createOk : String → Bool
  validateConfigOk : String → Bool
  initializeOk : String → Bool

/-- `TTSProviderFactory.create_provider` (lines 39-67): lower-case the name,
return `None` for an unregistered name or a throwing constructor, otherwise
the constructed provider (identified here by its name). -/
def create_provider (env : ProviderEnv) (providerName : String) : Option String :=
  let name := pyLower providerName
  if !(tts_provider_registry.contains name) then none
  else if !(env.createOk name) then none
  else some name

/-- `TTSProviderFactory.create_and_initialize_provider` (lines 69-95):
create, then `validate_config()`, then `initialize()`; each failure returns
`None` directly — the function never consults any other registered
provider. -/
def create_and_initialize_provider (env : ProviderEnv) (providerName : String) : Option String :=
  match create_provider env providerName with
  | none => none
  | some provider =>
    if !(env.validateConfigOk provider) then none
    else if !(env.initializeOk provider) then none
    else some provider

/-! ### synthesize_message and the create_and_play_tts pipeline
(src/app/tts/tts_manager.py lines 423-455, src/app/bellboy.py lines 250-288) -/

/-- The `try:` body of `TTSManager.synthesize_message`: obtain the message
text (`get_message` may throw), serve from cache when the output file exists
and validates, otherwise call the provider's `synthesize`, which may throw
(`Except.error`) or report failure (`Except.ok false`). -/
def synthesize_message_try (getMsgResult : Except String String) (fileExistsAtPath : Bool)
    (validateOk : String → Bool) (synthResult : String → Except String Bool) :
    Except String Bool :=
  match getMsgResult with
  | Except.error e => Except.error e
  | Except.ok text =>
    if fileExistsAtPath then
      if validateOk text then Except.ok true
      else synthResult text
    else synthResult text

/-- `TTSManager.synthesize_message` (lines 423-455): false when the provider
is not initialized; otherwise the `try:` body runs with a catch-all
`except` that turns any raised exception into a `false` return — hence the
`Bool` (never-raising) result type of this wrapper. -/
def synthesize_message (providerReady : Bool) (getMsgResult : Except String String)
    (fileExistsAtPath : Bool) (validateOk : String → Bool)
    (synthResult : String → Except String Bool) : Bool :=
  if !providerReady then false
  else
    match synthesize_message_try getMsgResult fileExistsAtPath validateOk synthResult with
    | Except.ok b => b
    | Except.error _ => false

/-- State threaded through repeated `create_and_play_tts` requests: which
cache files exist on disk, and how many provider `synthesize` calls have
been made. -/
structure SynthState where
  existingFiles : List String
  synthesizeCalls : Nat
deriving DecidableEq

/-- One `BellboyBot.create_and_play_tts` request (src/app/bellboy.py lines
250-288) followed by `TTSManager.synthesize_message`: the cache path is
`generate_cache_path(f"{message_type}_{member_id}", prefix=f"msg_{message_type}")`;
the spoken text is `get_message(message_type, ...)`; a cache hit (file
exists and validates) makes no synthesis call, otherwise the stale file is
invalidated and the provider synthesizes the audio (modelled as succeeding
and writing the file). -/
def create_and_play_tts_step (md5hex : String → String) (cacheDir providerName : String)
    (messages : List (String × String)) (messageType : String) (memberId : Int)
    (displayName : String) (st : SynthState) : SynthState :=
  let cachePath := generate_cache_path md5hex cacheDir providerName
    (messageType ++ "_" ++ toString memberId) ("msg_" ++ messageType) ".mp3"
  let text := get_message messages messageType displayName
  let fileThere := st.existingFiles.contains cachePath
  if fileThere && validate_cache_file md5hex text cachePath true then st
  else
    { existingFiles := (st.existingFiles.filter (fun f => !(f == cachePath))) ++ [cachePath]
      synthesizeCalls := st.synthesizeCalls + 1 }

/-! ### Claim theorems -/

/-- C10: for every member whose `bot` flag is false, whose discriminator is
not the webhook sentinel `"0000"`, and whose `system` flag is false,
`is_human_user` returns true when `bot_user_id` is still unset (`None`) —
the Python guard `if self.bot_user_id and ...` is skipped entirely, so
before `set_bot_user_id` runs, the agent's own member object is counted as
human. -/
theorem c10_unset_bot_id_counts_nonbot_member_as_human (m : Member)
    (hbot : m.bot = false) (hdisc : ¬ m.discriminator = "0000") (hsys : m.system = false) :
    is_human_user none m = true := by
  simp [is_human_user, hbot, hsys, hdisc]

/-- Witness for C10: a member carrying the agent's own id is counted as
human while `bot_user_id` is unset. -/
theorem c10_unset_bot_id_counts_nonbot_member_as_human_witness :
    is_human_user none ⟨99, false, "0001", false⟩ = true :=
  c10_unset_bot_id_counts_nonbot_member_as_human ⟨99, false, "0001", false⟩ rfl (by decide) rfl

/-- C9: `synthesize_message` never lets an exception out — the catch-all
`except` turns any exception raised inside the `try:` body (from
`get_message`, the cache check, or the provider's `synthesize`) into a
`false` return, and a provider that reports failure (`ok false`) likewise
yields `false`, so a failed synthesis is skipped rather than aborting the
event-processing path. -/
theorem c9_synthesize_message_failure_returns_false (providerReady : Bool)
    (getMsgResult : Except String String) (fileExistsAtPath : Bool)
    (validateOk : String → Bool) (synthResult : String → Except String Bool) :
    (∀ e, synthesize_message_try getMsgResult fileExistsAtPath validateOk synthResult =
        Except.error e →
      synthesize_message providerReady getMsgResult fileExistsAtPath validateOk synthResult =
        false) ∧
    (synthesize_message_try getMsgResult fileExistsAtPath validateOk synthResult =
        Except.ok false →
      synthesize_message providerReady getMsgResult fileExistsAtPath validateOk synthResult =
        false) := by
  constructor
  · intro e he
    cases providerReady <;> simp [synthesize_message, he]
  · intro he
    cases providerReady <;> simp [synthesize_message, he]

/-- Witness for C9: an initialized provider whose engine raises on a cache
miss makes `synthesize_message` return `false`. -/
theorem c9_synthesize_message_failure_returns_false_witness :
    synthesize_message true (Except.ok "Welcome Alice") false (fun _ => false)
      (fun _ => Except.error "engine failure") = false :=
  (c9_synthesize_message_failure_returns_false true (Except.ok "Welcome Alice") false
    (fun _ => false) (fun _ => Except.error "engine failure")).1 "engine failure" rfl

/-- C1 counterexample: in an environment where the primary provider
(`coqui`) fails `initialize()` while another registered provider (`piper`)
would initialize successfully, `create_and_initialize_provider` still
returns `none` for the primary — it performs no fallback iteration over the
remaining registered providers, contradicting the claim that `none` is
returned only when every registered provider fails. -/
theorem c1_no_fallback_counterexample :
    create_and_initialize_provider ⟨fun _ => true, fun _ => true, fun n => n == "piper"⟩
      "coqui" = none ∧
    create_and_initialize_provider ⟨fun _ => true, fun _ => true, fun n => n == "piper"⟩
      "piper" = some "piper" := by
  constructor <;> decide

/-- C1 amended: `create_and_initialize_provider` returns the (lower-cased)
named provider exactly when that provider is registered and its own
construction, config validation, and initialization all succeed; on any
failure it returns `none` without trying any other registered provider. -/
theorem c1_create_and_initialize_characterization (env : ProviderEnv) (providerName : String) :
    create_and_initialize_provider env providerName =
      (if tts_provider_registry.contains (pyLower providerName) &&
          env.createOk (pyLower providerName) &&
          env.validateConfigOk (pyLower providerName) &&
          env.initializeOk (pyLower providerName)
       then some (pyLower providerName) else none) := by
  by_cases hc : pyLower providerName ∈ tts_provider_registry <;>
  cases hk : env.createOk (pyLower providerName) <;>
  cases hv : env.validateConfigOk (pyLower providerName) <;>
  cases hi : env.initializeOk (pyLower providerName) <;>
  simp [create_and_initialize_provider, create_provider, hc, hk, hv, hi]

/-- C2: evaluation of the code at the failing input.  Two identical
`create_and_play_tts` requests (`message_type="join"`, `member_id=42`,
provider `coqui`, spoken text `"Welcome Alice"`): the first request
synthesizes and writes the cache file, but the second request fails
validation and synthesizes again (2 calls instead of 1), because (a) the
prefix `msg_join` contains an underscore, so `validate_cache_file`'s
`filename.split('_')[2]` picks out `"coqui"` — the provider name, not the
hash — and (b) the path hashes `"join_42"` while validation recomputes the
hash of the spoken text `"Welcome Alice"`. -/
theorem c2_message_cache_never_hits :
    (create_and_play_tts_step md5Mock "/app/assets" "coqui"
        [("join", "Welcome {display_name}")] "join" 42 "Alice"
        ⟨[], 0⟩).synthesizeCalls = 1 ∧
    (create_and_play_tts_step md5Mock "/app/assets" "coqui"
        [("join", "Welcome {display_name}")] "join" 42 "Alice"
        (create_and_play_tts_step md5Mock "/app/assets" "coqui"
          [("join", "Welcome {display_name}")] "join" 42 "Alice"
          ⟨[], 0⟩)).synthesizeCalls = 2 ∧
    validate_cache_file md5Mock (get_message [("join", "Welcome {display_name}")] "join" "Alice")
      (generate_cache_path md5Mock "/app/assets" "coqui" ("join" ++ "_" ++ toString (42 : Int))
        ("msg_" ++ "join") ".mp3") true = false := by
  refine ⟨by decide, by decide, by decide⟩

/-- C5 counterexample: the target channel is present, the human count is
positive, and the guild has no voice client (no active connection), yet
`should_bot_join` returns `false` because only 10 seconds have passed since
the last recorded connection attempt and the default 30-second connection
cooldown is respected — the claimed three-condition "if and only if"
characterization does not hold. -/
theorem c5_cooldown_counterexample :
    (some (⟨"general", []⟩ : VChannel)).isSome = true ∧ 0 < 1 ∧
    (none : Option VoiceClient).isNone = true ∧
    should_bot_join none 10 (some 1000) 30 1010 none (some ⟨"general", []⟩) 1 true = false := by
  refine ⟨rfl, Nat.one_pos, rfl, by decide⟩

/-- C5 amended: `should_bot_join` is true iff the target is present, the
count is positive, the guild has no `voice_client` object at all (so it is
false whenever a voice client exists, connected or not), and — when
`respect_cooldown` is set — `can_attempt_connection` passes (startup delay
elapsed and the per-guild connection cooldown expired). -/
theorem c5_should_bot_join_characterization (botReadyTime : Option Int) (startupDelay : Int)
    (lastConnectionAttempt : Option Int) (connectionCooldown : Int) (now : Int)
    (voiceClient : Option VoiceClient) (targetChannel : Option VChannel)
    (humanCount : Nat) (respectCooldown : Bool) :
    should_bot_join botReadyTime startupDelay lastConnectionAttempt connectionCooldown now
        voiceClient targetChannel humanCount respectCooldown =
      (targetChannel.isSome && !(humanCount == 0) &&
        (!respectCooldown ||
          can_attempt_connection botReadyTime startupDelay lastConnectionAttempt
            connectionCooldown now) &&
        voiceClient.isNone) := by
  cases targetChannel <;> cases voiceClient <;> cases respectCooldown <;>
    cases hh : humanCount == 0 <;>
      cases hca : can_attempt_connection botReadyTime startupDelay lastConnectionAttempt
          connectionCooldown now <;>
        simp [should_bot_join, hh, hca]

/-- C7 counterexample: a channel switch was recorded at time 100 and an
eligible join decision (no voice client, busiest channel with one member)
arrives at time 105, inside the 30-second cooldown window — yet
`join_busiest_channel_if_needed` executes the join: the join branch never
consults `_should_switch_channels`, so the claim that any eligible join or
move decision inside the window is suppressed is false. -/
theorem c7_join_ignores_cooldown_counterexample :
    ((105 : Int) - 100 < channel_switch_cooldown) ∧
    join_busiest_action none (some "general") 1 100 105 channel_switch_cooldown =
      JoinAction.join ∧
    executedConnectionAction
      (join_busiest_action none (some "general") 1 100 105 channel_switch_cooldown) = true := by
  refine ⟨by decide, by decide, by decide⟩

/-- C7 amended: the switch cooldown governs exactly the move branch — for a
connected session whose current channel differs from the busiest one, the
decision within the cooldown window is `cooldownSuppressed` (not executed,
not queued) and outside the window it is the executed `move`; moreover,
after a move executed at time `now` is recorded by `_mark_channel_switch`,
any second eligible move decision arriving within the cooldown window is
suppressed, so two consecutive eligible move decisions inside the window
execute exactly one connection action.  Join and reconnect decisions (no
connected voice client) are not subject to this cooldown. -/
theorem c7_move_cooldown_suppression (vc : VoiceClient) (busiestId : String)
    (maxMembers : Nat) (lastChannelSwitch now cooldown : Int)
    (hconn : vc.connected = true) (hdiff : ¬ vc.channelId = busiestId)
    (hmem : 0 < maxMembers) :
    (now - lastChannelSwitch < cooldown →
      join_busiest_action (some vc) (some busiestId) maxMembers lastChannelSwitch now cooldown =
        JoinAction.cooldownSuppressed) ∧
    (cooldown ≤ now - lastChannelSwitch →
      join_busiest_action (some vc) (some busiestId) maxMembers lastChannelSwitch now cooldown =
        JoinAction.move) ∧
    (∀ now₂, now₂ - mark_channel_switch now < cooldown →
      join_busiest_action (some vc) (some busiestId) maxMembers (mark_channel_switch now) now₂
          cooldown =
        JoinAction.cooldownSuppressed ∧
      executedConnectionAction JoinAction.cooldownSuppressed = false) := by
  have hne : ¬ maxMembers = 0 := Nat.pos_iff_ne_zero.mp hmem
  refine ⟨?_, ?_, ?_⟩
  · intro hlt
    simp [join_busiest_action, should_switch_channels, hne, hconn, hdiff, hlt]
  · intro hge
    simp [join_busiest_action, should_switch_channels, hne, hconn, hdiff, Int.not_lt.mpr hge]
  · intro now₂ hlt
    refine ⟨?_, rfl⟩
    simp only [mark_channel_switch] at hlt
    simp [join_busiest_action, should_switch_channels, mark_channel_switch, hne, hconn,
      hdiff, hlt]

/-- Witness for C7's amended theorem: with a connected client in channel
`"a"`, busiest channel `"b"`, a switch recorded at time 100 and the
decision re-evaluated at time 105 with the 30-second cooldown, the move is
suppressed. -/
theorem c7_move_cooldown_suppression_witness :
    join_busiest_action (some ⟨true, "a"⟩) (some "b") 1 100 105 30 =
      JoinAction.cooldownSuppressed :=
  (c7_move_cooldown_suppression ⟨true, "a"⟩ "b" 1 100 105 30 rfl (by decide) (by decide)).1
    (by decide)

/-- C4 counterexample: two requests with identical text and provider but
different synthesis parameters (`speed=1.0` vs `speed=2.0`) resolve to the
same cache path — the parameters play no role in the key, contradicting the
claim that any change to the parameters yields a different key. -/
theorem c4_params_ignored_counterexample :
    create_tts_from_text_cache_path md5Mock "/app/assets" "coqui" "Welcome Alice"
        [("speed", "1.0")] =
      create_tts_from_text_cache_path md5Mock "/app/assets" "coqui" "Welcome Alice"
        [("speed", "2.0")] := rfl

/-- C4 amended: the cache path is a deterministic function of the text and
the provider name alone — the key is the md5 of the text (not of text ++
provider ++ params), the filename embeds the provider name, so a different
provider name or a text with a different hash yields a different path,
while the synthesis parameters never influence the path. -/
theorem c4_cache_path_determinism (md5hex : String → String)
    (cacheDir pre suffixStr provider₁ provider₂ text₁ text₂ : String) :
    (¬ provider₁ = provider₂ →
      ¬ generate_cache_path md5hex cacheDir provider₁ text₁ pre suffixStr =
          generate_cache_path md5hex cacheDir provider₂ text₁ pre suffixStr) ∧
    (¬ md5hex text₁ = md5hex text₂ →
      ¬ generate_cache_path md5hex cacheDir provider₁ text₁ pre suffixStr =
          generate_cache_path md5hex cacheDir provider₁ text₂ pre suffixStr) ∧
    (∀ kwargs₁ kwargs₂ : List (String × String),
      create_tts_from_text_cache_path md5hex cacheDir provider₁ text₁ kwargs₁ =
        create_tts_from_text_cache_path md5hex cacheDir provider₁ text₁ kwargs₂) := by
  refine ⟨?_, ?_, fun _ _ => rfl⟩
  · intro hne heq
    apply hne
    have hd := congrArg String.data heq
    simp only [generate_cache_path, String.data_append, List.append_assoc] at hd
    exact String.ext
      (List.append_cancel_right
        (List.append_cancel_left (List.append_cancel_left
          (List.append_cancel_left (List.append_cancel_left hd)))))
  · intro hne heq
    apply hne
    have hd := congrArg String.data heq
    simp only [generate_cache_path, String.data_append, List.append_assoc] at hd
    exact String.ext
      (List.append_cancel_right
        (List.append_cancel_left (List.append_cancel_left (List.append_cancel_left
          (List.append_cancel_left (List.append_cancel_left (List.append_cancel_left hd)))))))

/-- Witness for C4's amended theorem: distinct provider names give distinct
cache paths for the same text. -/
theorem c4_cache_path_determinism_witness :
    ¬ generate_cache_path md5Mock "/app/assets" "coqui" "hello" "tts" ".mp3" =
        generate_cache_path md5Mock "/app/assets" "piper" "hello" "tts" ".mp3" :=
  (c4_cache_path_determinism md5Mock "/app/assets" "tts" ".mp3" "coqui" "piper" "hello"
    "world").1 (by decide)

/-- Helper: full characterization of the `find_most_active_channel`
accumulator loop.  Either no non-ignored channel beats the incoming maximum
and the accumulator pair is returned unchanged, or the loop returns the
first channel that reaches the final maximum: everything before it (and not
ignored) counts strictly less, everything after it (and not ignored) counts
at most as much. -/
theorem find_most_active_go_characterization (ign : Option String) (bot : Option Int) :
    ∀ (cs : List VChannel) (best : Option VChannel) (mx : Nat),
    (find_most_active_go ign bot cs best mx = (best, mx) ∧
      ∀ c ∈ cs, isIgnoredChannel ign c = true ∨ count_humans_in_channel bot (some c) ≤ mx) ∨
    (∃ pre c post, cs = pre ++ c :: post ∧ isIgnoredChannel ign c = false ∧
      find_most_active_go ign bot cs best mx = (some c, count_humans_in_channel bot (some c)) ∧
      mx < count_humans_in_channel bot (some c) ∧
      (∀ d ∈ pre, isIgnoredChannel ign d = true ∨
        count_humans_in_channel bot (some d) < count_humans_in_channel bot (some c)) ∧
      (∀ d ∈ post, isIgnoredChannel ign d = true ∨
        count_humans_in_channel bot (some d) ≤ count_humans_in_channel bot (some c))) := by
  intro cs
  induction cs with
  | nil =>
    intro best mx
    left
    exact ⟨rfl, by simp⟩
  | cons c cs ih =>
    intro best mx
    by_cases hig : isIgnoredChannel ign c = true
    · rcases ih best mx with ⟨heq, hall⟩ | ⟨pre, c', post, hsplit, hnig, heq, hlt, hpre, hpost⟩
      · left
        refine ⟨by simpa [find_most_active_go, hig] using heq, ?_⟩
        intro d hd
        rcases List.mem_cons.mp hd with rfl | hd
        · exact Or.inl hig
        · exact hall d hd
      · right
        refine ⟨c :: pre, c', post, by simp [hsplit], hnig,
          by simpa [find_most_active_go, hig] using heq, hlt, ?_, hpost⟩
        intro d hd
        rcases List.mem_cons.mp hd with rfl | hd
        · exact Or.inl hig
        · exact hpre d hd
    · have hig' : isIgnoredChannel ign c = false := by simpa using hig
      by_cases hcnt : mx < count_humans_in_channel bot (some c)
      · rcases ih (some c) (count_humans_in_channel bot (some c)) with
          ⟨heq, hall⟩ | ⟨pre, c', post, hsplit, hnig, heq, hlt, hpre, hpost⟩
        · right
          exact ⟨[], c, cs, by simp, hig',
            by simpa [find_most_active_go, hig', hcnt] using heq, hcnt, by simp, hall⟩
        · right
          refine ⟨c :: pre, c', post, by simp [hsplit], hnig,
            by simpa [find_most_active_go, hig', hcnt] using heq, lt_trans hcnt hlt, ?_, hpost⟩
          intro d hd
          rcases List.mem_cons.mp hd with rfl | hd
          · exact Or.inr hlt
          · exact hpre d hd
      · have hle : count_humans_in_channel bot (some c) ≤ mx := Nat.le_of_not_lt hcnt
        rcases ih best mx with ⟨heq, hall⟩ | ⟨pre, c', post, hsplit, hnig, heq, hlt, hpre, hpost⟩
        · left
          refine ⟨by simpa [find_most_active_go, hig', hcnt] using heq, ?_⟩
          intro d hd
          rcases List.mem_cons.mp hd with rfl | hd
          · exact Or.inr hle
          · exact hall d hd
        · right
          refine ⟨c :: pre, c', post, by simp [hsplit], hnig,
            by simpa [find_most_active_go, hig', hcnt] using heq, hlt, ?_, hpost⟩
          intro d hd
          rcases List.mem_cons.mp hd with rfl | hd
          · exact Or.inr (lt_of_le_of_lt hle hlt)
          · exact hpre d hd

/-- C3: `find_most_active_channel` returns the first channel, in the
community's channel order and skipping ignored channels, that attains the
maximum human count — any returned channel is not ignored, carries the
returned (positive) count, every earlier non-ignored channel counts
strictly less (so a later channel with an equal count never replaces an
earlier one), every later non-ignored channel counts at most as much; the
result is `(none, 0)` when no non-ignored channel has at least one human;
and conversely, whenever some non-ignored channel has at least one human, a
channel is returned (so together with the first conjunct, the first channel
attaining the maximum is returned). -/
theorem c3_find_most_active_first_max (ign : Option String) (bot : Option Int)
    (chans : List VChannel) :
    (∀ c, (find_most_active_channel ign bot chans).1 = some c →
      isIgnoredChannel ign c = false ∧
      count_humans_in_channel bot (some c) = (find_most_active_channel ign bot chans).2 ∧
      0 < (find_most_active_channel ign bot chans).2 ∧
      ∃ pre post, chans = pre ++ c :: post ∧
        (∀ d ∈ pre, isIgnoredChannel ign d = true ∨
          count_humans_in_channel bot (some d) < count_humans_in_channel bot (some c)) ∧
        (∀ d ∈ post, isIgnoredChannel ign d = true ∨
          count_humans_in_channel bot (some d) ≤ count_humans_in_channel bot (some c))) ∧
    ((∀ c ∈ chans, isIgnoredChannel ign c = true ∨ count_humans_in_channel bot (some c) = 0) →
      find_most_active_channel ign bot chans = (none, 0)) ∧
    ((∃ c ∈ chans, isIgnoredChannel ign c = false ∧
        0 < count_humans_in_channel bot (some c)) →
      ∃ c, (find_most_active_channel ign bot chans).1 = some c) := by
  have h := find_most_active_go_characterization ign bot chans none 0
  refine ⟨?_, ?_, ?_⟩
  · intro c hc
    rcases h with ⟨heq, _⟩ | ⟨pre, c', post, hsplit, hnig, heq, hlt, hpre, hpost⟩
    · rw [find_most_active_channel, heq] at hc
      exact absurd hc (by simp)
    · rw [find_most_active_channel, heq] at hc
      have hcc : c' = c := by simpa using hc
      subst hcc
      rw [find_most_active_channel, heq]
      exact ⟨hnig, rfl, hlt, pre, post, hsplit, hpre, hpost⟩
  · intro hall
    rcases h with ⟨heq, _⟩ | ⟨pre, c', post, hsplit, hnig, heq, hlt, _, _⟩
    · rw [find_most_active_channel, heq]
    · exfalso
      have hmem : c' ∈ chans := by rw [hsplit]; simp
      rcases hall c' hmem with hig | hz
      · rw [hnig] at hig
        exact Bool.false_ne_true hig
      · omega
  · rintro ⟨c, hc, hnigc, hpos⟩
    rcases h with ⟨_, hall⟩ | ⟨pre, c', post, _, _, heq, _, _, _⟩
    · rcases hall c hc with hig | hle
      · rw [hnigc] at hig
        exact absurd hig Bool.false_ne_true
      · omega
    · exact ⟨c', by rw [find_most_active_channel, heq]⟩

/-- Witness for C3: a guild whose only populated channel is the ignored one
yields `(none, 0)`, while a guild with a populated non-ignored channel
(behind a more populated ignored one) does return a channel. -/
theorem c3_find_most_active_first_max_witness :
    find_most_active_channel (some "ig") none
      [⟨"ig", [⟨1, false, "0001", false⟩]⟩, ⟨"a", []⟩] = (none, 0) ∧
    (∃ c, (find_most_active_channel (some "ig") none
      [⟨"ig", [⟨1, false, "0001", false⟩, ⟨2, false, "0002", false⟩]⟩,
       ⟨"a", [⟨3, false, "0003", false⟩]⟩]).1 = some c) :=
  ⟨(c3_find_most_active_first_max (some "ig") none
      [⟨"ig", [⟨1, false, "0001", false⟩]⟩, ⟨"a", []⟩]).2.1 (by decide),
   (c3_find_most_active_first_max (some "ig") none
      [⟨"ig", [⟨1, false, "0001", false⟩, ⟨2, false, "0002", false⟩]⟩,
       ⟨"a", [⟨3, false, "0003", false⟩]⟩]).2.2 (by decide)⟩

/-- Helper: a dict assignment with a fresh key appends the new entry. -/
theorem dict_set_append (cache : List CacheEntry) (p : String) (t : Int)
    (h : ¬ p ∈ cache.map Prod.fst) : dict_set cache p t = cache ++ [(p, t)] := by
  have hany : cache.any (fun e => e.1 == p) = false := by
    simp only [List.any_eq_false]
    intro e he
    simp only [beq_iff_eq]
    intro hep
    exact h (List.mem_map.mpr ⟨e, he, hep⟩)
  simp [dict_set, hany]

/-- Helper: when the tracked count exceeds the limit,
`_cleanup_if_needed` keeps exactly `maxFiles` entries, and every removed
entry has a timestamp at most that of every kept entry (oldest-first
eviction). -/
theorem cleanup_if_needed_spec (maxFiles : Nat) (cache : List CacheEntry)
    (hnod : cache.Nodup) (hgt : maxFiles < cache.length) :
    (cleanup_if_needed maxFiles cache).length = maxFiles ∧
    (∀ e ∈ cache, ¬ e ∈ cleanup_if_needed maxFiles cache →
      ∀ e' ∈ cleanup_if_needed maxFiles cache, e.2 ≤ e'.2) := by
  have hnotle : ¬ cache.length ≤ maxFiles := Nat.not_le.mpr hgt
  have hperm : List.Perm (List.insertionSort entryLE cache) cache :=
    List.perm_insertionSort entryLE cache
  have hsorted : List.Sorted entryLE (List.insertionSort entryLE cache) :=
    List.sorted_insertionSort entryLE cache
  have hnodS : (List.insertionSort entryLE cache).Nodup := hperm.nodup_iff.mpr hnod
  have hres : cleanup_if_needed maxFiles cache =
      cache.filter (fun e =>
        decide (¬ e ∈ (List.insertionSort entryLE cache).take (cache.length - maxFiles))) := by
    simp only [cleanup_if_needed, if_neg hnotle]
  have hsplitS : (List.insertionSort entryLE cache).take (cache.length - maxFiles) ++
      (List.insertionSort entryLE cache).drop (cache.length - maxFiles) =
      List.insertionSort entryLE cache := List.take_append_drop _ _
  have hdisj : ∀ x ∈ (List.insertionSort entryLE cache).drop (cache.length - maxFiles),
      ¬ x ∈ (List.insertionSort entryLE cache).take (cache.length - maxFiles) := by
    intro x hxd hxt
    have hnodTD : ((List.insertionSort entryLE cache).take (cache.length - maxFiles) ++
        (List.insertionSort entryLE cache).drop (cache.length - maxFiles)).Nodup := by
      rw [hsplitS]; exact hnodS
    exact (List.nodup_append.mp hnodTD).2.2 hxt hxd
  have hmem : ∀ x, x ∈ cleanup_if_needed maxFiles cache ↔
      x ∈ (List.insertionSort entryLE cache).drop (cache.length - maxFiles) := by
    intro x
    rw [hres]
    simp only [List.mem_filter, decide_eq_true_eq]
    constructor
    · rintro ⟨hx, hnx⟩
      have hxS : x ∈ List.insertionSort entryLE cache := hperm.mem_iff.mpr hx
      rw [← hsplitS] at hxS
      rcases List.mem_append.mp hxS with h | h
      · exact absurd h hnx
      · exact h
    · intro hx
      refine ⟨?_, hdisj x hx⟩
      apply hperm.mem_iff.mp
      rw [← hsplitS]
      exact List.mem_append.mpr (Or.inr hx)
  have hnodR : (cleanup_if_needed maxFiles cache).Nodup := by
    rw [hres]; exact (List.filter_sublist cache).nodup hnod
  have hnodK : ((List.insertionSort entryLE cache).drop (cache.length - maxFiles)).Nodup :=
    (List.drop_sublist _ _).nodup hnodS
  have hpermRK : List.Perm (cleanup_if_needed maxFiles cache)
      ((List.insertionSort entryLE cache).drop (cache.length - maxFiles)) :=
    (List.perm_ext_iff_of_nodup hnodR hnodK).mpr hmem
  constructor
  · have hlenS : (List.insertionSort entryLE cache).length = cache.length := hperm.length_eq
    have hlenRK := hpermRK.length_eq
    rw [List.length_drop, hlenS] at hlenRK
    omega
  · intro e he hne e' he'
    have heT : e ∈ (List.insertionSort entryLE cache).take (cache.length - maxFiles) := by
      have heS : e ∈ List.insertionSort entryLE cache := hperm.mem_iff.mpr he
      rw [← hsplitS] at heS
      rcases List.mem_append.mp heS with h | h
      · exact h
      · exact absurd ((hmem e).mpr h) hne
    have he'K := (hmem e').mp he'
    have hpw : List.Pairwise entryLE
        ((List.insertionSort entryLE cache).take (cache.length - maxFiles) ++
          (List.insertionSort entryLE cache).drop (cache.length - maxFiles)) := by
      rw [hsplitS]; exact hsorted
    exact (List.pairwise_append.mp hpw).2.2 e heT e' he'K

/-- C6: for every cache state satisfying the dict invariant (unique paths)
and every insert of a fresh path that takes the entry count beyond
`max_files`, eviction keeps exactly `max_files` entries; every removed
entry is at least as old as every kept entry (oldest-timestamp-first); and
the just-inserted entry is never removed while strictly older entries
remain — if it was evicted, everything remaining has a timestamp at least
`now`. -/
theorem c6_eviction_exact_and_oldest_first (cache : List CacheEntry) (filePath : String)
    (now : Int) (maxFiles : Nat)
    (hkeys : (cache.map Prod.fst).Nodup)
    (hnew : ¬ filePath ∈ cache.map Prod.fst)
    (hover : maxFiles < cache.length + 1) :
    (add_file true maxFiles cache filePath now).length = maxFiles ∧
    (∀ e ∈ dict_set cache filePath now, ¬ e ∈ add_file true maxFiles cache filePath now →
      ∀ e' ∈ add_file true maxFiles cache filePath now, e.2 ≤ e'.2) ∧
    (¬ (filePath, now) ∈ add_file true maxFiles cache filePath now →
      ∀ e' ∈ add_file true maxFiles cache filePath now, now ≤ e'.2) := by
  have hset : dict_set cache filePath now = cache ++ [(filePath, now)] :=
    dict_set_append cache filePath now hnew
  have hkeys' : ((cache ++ [(filePath, now)]).map Prod.fst).Nodup := by
    rw [List.map_append]
    simp [List.nodup_append, hkeys, hnew]
  have hnod' : (cache ++ [(filePath, now)]).Nodup := hkeys'.of_map _
  have hgt : maxFiles < (cache ++ [(filePath, now)]).length := by
    simp only [List.length_append, List.length_cons, List.length_nil]
    omega
  have hspec := cleanup_if_needed_spec maxFiles (cache ++ [(filePath, now)]) hnod' hgt
  have haf : add_file true maxFiles cache filePath now =
      cleanup_if_needed maxFiles (cache ++ [(filePath, now)]) := by
    simp [add_file, hset]
  refine ⟨?_, ?_, ?_⟩
  · rw [haf]; exact hspec.1
  · rw [haf, hset]; exact hspec.2
  · rw [haf]
    intro hnotin e' he'
    exact hspec.2 (filePath, now) (by simp) hnotin e' he'

/-- Witness for C6: inserting a third entry into a two-entry cache with
`max_files = 2` evicts exactly one (the oldest) entry. -/
theorem c6_eviction_exact_and_oldest_first_witness :
    (add_file true 2 [("a", 1), ("b", 2)] "c" 3).length = 2 :=
  (c6_eviction_exact_and_oldest_first [("a", 1), ("b", 2)] "c" 3 2 (by decide) (by decide)
    (by decide)).1

/-- Helper: folding dict assignments of fresh, pairwise-distinct keys over a
cache appends all of them in order. -/
theorem scan_foldl_append (files : List CacheEntry) :
    ∀ cache : List CacheEntry,
      (∀ f ∈ files, ¬ f.1 ∈ cache.map Prod.fst) →
      (files.map Prod.fst).Nodup →
      files.foldl (fun acc ft => dict_set acc ft.1 ft.2) cache = cache ++ files := by
  induction files with
  | nil =>
    intro cache _ _
    simp
  | cons f fs ih =>
    intro cache hnotin hnod
    have hf : ¬ f.1 ∈ cache.map Prod.fst := hnotin f (List.mem_cons_self f fs)
    have hsetf : dict_set cache f.1 f.2 = cache ++ [(f.1, f.2)] :=
      dict_set_append cache f.1 f.2 hf
    rw [List.map_cons] at hnod
    have hnodtail : (fs.map Prod.fst).Nodup := hnod.of_cons
    have hhead : ¬ f.1 ∈ fs.map Prod.fst := (List.nodup_cons.mp hnod).1
    have hstep : ∀ g ∈ fs, ¬ g.1 ∈ ((cache ++ [(f.1, f.2)]).map Prod.fst) := by
      intro g hg
      rw [List.map_append]
      simp only [List.mem_append, List.map_cons, List.map_nil, List.mem_singleton]
      rintro (hcl | hfl)
      · exact hnotin g (List.mem_cons_of_mem f hg) hcl
      · exact hhead (List.mem_map.mpr ⟨g, hg, hfl⟩)
    rw [List.foldl_cons, hsetf, ih (cache ++ [(f.1, f.2)]) hstep hnodtail]
    simp

/-- C8 counterexample: with `max_files = 1` and two pre-existing artifacts
in the cache directory, the startup scan rehydrates both entries and
performs no cleanup, leaving the tracked count at 2 > 1 — a restart can
leave the cache above its configured size bound until the next insert. -/
theorem c8_scan_exceeds_limit_counterexample :
    ¬ (scan_existing_cache true [("/app/assets/a.mp3", 1), ("/app/assets/b.mp3", 2)] []).length
        ≤ 1 := by
  decide

/-- C8 amended: the startup scan rehydrates exactly one tracked entry per
artifact found on disk (keyed by path, with the file's modification time as
its timestamp), so the tracked count equals the number of artifacts found —
which may exceed the configured maximum, since the scan itself never runs
cleanup; the bound is only restored by the next `add_file`. -/
theorem c8_scan_rehydrates_all (existingFiles : List CacheEntry)
    (hnod : (existingFiles.map Prod.fst).Nodup) :
    scan_existing_cache true existingFiles [] = existingFiles ∧
    (scan_existing_cache true existingFiles []).length = existingFiles.length := by
  have h := scan_foldl_append existingFiles [] (by simp) hnod
  have hs : scan_existing_cache true existingFiles [] = existingFiles := by
    simp only [scan_existing_cache]
    simpa using h
  exact ⟨hs, by rw [hs]⟩

/-- Witness for C8's amended theorem: a single artifact on disk rehydrates
to exactly that entry. -/
theorem c8_scan_rehydrates_all_witness :
    scan_existing_cache true [("/app/assets/a.mp3", 5)] [] = [("/app/assets/a.mp3", 5)] :=
  (c8_scan_rehydrates_all [("/app/assets/a.mp3", 5)] (by decide)).1

end Bellboy
